import Mathlib

/-!
Verification of the astk sky / sun model core.

Shallow embedding of the numerical core of the astk repository:
  - alinea/astk/meteorology/sky_luminance.py (CIE and Perez all-weather sky models)
  - alinea/astk/meteorology/sky_irradiance.py (irradiance pipeline)
  - alinea/astk/all_weather_sky.py (older duplicate implementation)
  - alinea/astk/sky_turtle.py (turtle dome interface; the icosphere module it
    delegates to is not part of the sources, so it is modelled from the spec).

Python floats are embedded as real numbers; numpy vectorised functions are
embedded by their scalar semantics; pandas row filtering is embedded as list
filtering; the fallible python functions (raise ValueError) are embedded as
Except returning functions.
-/

open Real

noncomputable section

/-- Embedding of numpy.radians: degrees to radians. -/
def radians (x : ℝ) : ℝ := x * π / 180

/-- Embedding of sky_irradiance.horizontal_irradiance:
normal_irradiance times the sine of the elevation (degrees, converted). -/
def horizontal_irradiance (normal_irr elevation : ℝ) : ℝ :=
  normal_irr * Real.sin (radians elevation)

/-- Embedding of sky_irradiance.normal_irradiance:
horizontal irradiance divided by the sine of the elevation (degrees, converted). -/
def normal_irradiance (horizontal_irr elevation : ℝ) : ℝ :=
  horizontal_irr / Real.sin (radians elevation)

/-- Embedding of all_weather_sky.actual_sky_irradiances dni derivation (line 93):
dni = (ghi - dhi) / sin(apparent_elevation). Note that the code passes the
elevation in degrees directly to the sine, without converting to radians. -/
def aw_sky_dni (ghi dhi elevation : ℝ) : ℝ :=
  (ghi - dhi) / Real.sin elevation

/-- Embedding of sky_irradiance.clearness (Perez clearness index). -/
def clearness_index (dni dhi sun_zenith : ℝ) : ℝ :=
  let z := radians sun_zenith
  ((dhi + dni) / dhi + 1.041 * z ^ 3) / (1 + 1.041 * z ^ 3)

/-- Embedding of sky_irradiance.brightness (Perez brightness index). -/
def brightness_index (air_mass dhi dni_extra : ℝ) : ℝ :=
  air_mass * dhi / dni_extra

/-- Embedding of sky_luminance.cie_luminance_gradation, including the
numpy.where guard that defines the unnormalised gradation to be 1 where
cos theta = 0. -/
def cie_luminance_gradation (theta a b : ℝ) : ℝ :=
  let phi_0 := 1 + a * Real.exp b
  let phi_z := if Real.cos theta = 0 then 1 else 1 + a * Real.exp (b / Real.cos theta)
  phi_z / phi_0

/-- Embedding of sky_luminance.cie_scattering_indicatrix. Sun zenith and sun
azimuth are given in degrees (converted inside), theta and phi in radians. -/
def cie_scattering_indicatrix (theta phi sun_zenith sun_azimuth c d e : ℝ) : ℝ :=
  let z := theta
  let zs := radians sun_zenith
  let ksi := Real.arccos
    (Real.cos zs * Real.cos z + Real.sin zs * Real.sin z * Real.cos |phi - radians sun_azimuth|)
  let f_ksi := 1 + c * (Real.exp (d * ksi) - Real.exp (d * π / 2)) + e * Real.cos ksi ^ 2
  let f_zs := 1 + c * (Real.exp (d * zs) - Real.exp (d * π / 2)) + e * Real.cos zs ^ 2
  f_ksi / f_zs

/-- Embedding of sky_luminance.cie_relative_luminance. The python function
raises ValueError in three branches; these are embedded as Except.error with
the message raised by the code. Optional arguments are embedded as Option. -/
def cie_relative_luminance (theta : ℝ) (phi sun_zenith sun_azimuth : Option ℝ)
    (type : String) : Except String ℝ :=
  if type = "clear_sky" ∧ (sun_zenith = none ∨ sun_azimuth = none ∨ phi = none) then
    Except.error "Clear sky requires sun position"
  else if type = "soc" then
    Except.ok (cie_luminance_gradation theta 4 (-0.7))
  else if type = "uoc" then
    Except.ok (cie_luminance_gradation theta 0 (-1))
  else if type = "clear_sky" then
    Except.ok (cie_luminance_gradation theta (-1) (-0.32) *
      cie_scattering_indicatrix theta (phi.getD 0) (sun_zenith.getD 0) (sun_azimuth.getD 0)
        10 (-3) 0.45)
  else if type = "blended" then
    Except.error "not yet implemented"
  else
    Except.error "Unknown sky type"

/-- Perez all-weather bin edges (sky_luminance.aw_parameters). -/
def aw_bins : List ℝ := [1, 1.065, 1.23, 1.5, 1.95, 2.8, 4.5, 6.2]

/-- Perez coefficient table, parameter a, columns 1 to 4. -/
def aw_a1 : List ℝ := [1.3525, -1.2219, -1.1000, -0.5484, -0.6000, -1.0156, -1.0000, -1.0500]

/-- Perez coefficient table, parameter a, column 2. -/
def aw_a2 : List ℝ := [-0.2576, -0.7730, -0.2215, -0.6654, -0.3566, -0.3670, 0.0211, 0.0289]

/-- Perez coefficient table, parameter a, column 3. -/
def aw_a3 : List ℝ := [-0.2690, 1.4148, 0.8952, -0.2672, -2.5000, 1.0078, 0.5025, 0.4260]

/-- Perez coefficient table, parameter a, column 4. -/
def aw_a4 : List ℝ := [-1.4366, 1.1016, 0.0156, 0.7117, 2.3250, 1.4051, -0.5119, 0.3590]

/-- Perez coefficient table, parameter b, column 1. -/
def aw_b1 : List ℝ := [-0.7670, -0.2054, 0.2782, 0.7234, 0.2937, 0.2875, -0.3000, -0.3250]

/-- Perez coefficient table, parameter b, column 2. -/
def aw_b2 : List ℝ := [0.0007, 0.0367, -0.1812, -0.6219, 0.0496, -0.5328, 0.1922, 0.1156]

/-- Perez coefficient table, parameter b, column 3. -/
def aw_b3 : List ℝ := [1.2734, -3.9128, -4.5000, -5.6812, -5.6812, -3.8500, 0.7023, 0.7781]

/-- Perez coefficient table, parameter b, column 4. -/
def aw_b4 : List ℝ := [-0.1233, 0.9156, 1.1766, 2.6297, 1.8415, 3.3750, -1.6317, 0.0025]

/-- Perez coefficient table, parameter c, column 1. -/
def aw_c1 : List ℝ := [2.8000, 6.9750, 24.7219, 33.3389, 21.0000, 14.0000, 19.0000, 31.0625]

/-- Perez coefficient table, parameter c, column 2. -/
def aw_c2 : List ℝ := [0.6004, 0.1774, -13.0812, -18.3000, -4.7656, -0.9999, -5.0000, -14.5000]

/-- Perez coefficient table, parameter c, column 3. -/
def aw_c3 : List ℝ := [1.2375, 6.4477, -37.7000, -62.2500, -21.5906, -7.1406, 1.2438, -46.1148]

/-- Perez coefficient table, parameter c, column 4. -/
def aw_c4 : List ℝ := [1.0000, -0.1239, 34.8438, 52.0781, 7.2492, 7.5469, -1.9094, 55.3750]

/-- Perez coefficient table, parameter d, column 1. -/
def aw_d1 : List ℝ := [1.8734, -1.5798, -5.0000, -3.5000, -3.5000, -3.4000, -4.0000, -7.2312]

/-- Perez coefficient table, parameter d, column 2. -/
def aw_d2 : List ℝ := [0.6297, -0.5081, 1.5218, 0.0016, -0.1554, -0.1078, 0.0250, 0.4050]

/-- Perez coefficient table, parameter d, column 3. -/
def aw_d3 : List ℝ := [0.9738, -1.7812, 3.9229, 1.1477, 1.4062, -1.0750, 0.3844, 13.3500]

/-- Perez coefficient table, parameter d, column 4. -/
def aw_d4 : List ℝ := [0.2809, 0.1080, -2.6204, 0.1062, 0.3988, 1.5702, 0.2656, 0.6234]

/-- Perez coefficient table, parameter e, column 1. -/
def aw_e1 : List ℝ := [0.0356, 0.2624, -0.0156, 0.4659, 0.0032, -0.0672, 1.0468, 1.5000]

/-- Perez coefficient table, parameter e, column 2. -/
def aw_e2 : List ℝ := [-0.1246, 0.0672, 0.1597, -0.3296, 0.0766, 0.4016, -0.3788, -0.6426]

/-- Perez coefficient table, parameter e, column 3. -/
def aw_e3 : List ℝ := [-0.5718, -0.2190, 0.4199, -0.0876, -0.0656, 0.3017, -2.4517, 1.8564]

/-- Perez coefficient table, parameter e, column 4. -/
def aw_e4 : List ℝ := [0.9938, -0.4285, -0.5562, -0.0329, -0.1294, -0.4844, 1.4656, 0.5636]

/-- Embedding of numpy.searchsorted with side left on a sorted list: the number
of elements of the list strictly below the probe value. -/
def searchsorted (bins : List ℝ) (v : ℝ) : ℕ :=
  (bins.filter (fun b => decide (b < v))).length

/-- Embedding of the bin selection index max(0, searchsorted(bins, clearness) - 1)
of sky_luminance.aw_parameters. -/
def aw_index (clearness : ℝ) : ℕ :=
  (max 0 ((searchsorted aw_bins clearness : ℤ) - 1)).toNat

/-- Embedding of the inner _awfit linear fit of sky_luminance.aw_parameters. -/
def awfit (p1 p2 p3 p4 zen br : ℝ) : ℝ :=
  p1 + p2 * zen + br * (p3 + p4 * zen)

/-- Embedding of sky_luminance.aw_parameters: the five Perez coefficients at
(zenith angle z in radians, clearness, brightness). The linear fit is computed
for the selected bin; the coefficients c and d are then overwritten by the
non-linear first-bin formulas when clearness is at most 1.065. -/
def aw_parameters (z clearness brightness : ℝ) : ℝ × ℝ × ℝ × ℝ × ℝ :=
  let idx := aw_index clearness
  let a := awfit (aw_a1.getD idx 0) (aw_a2.getD idx 0) (aw_a3.getD idx 0) (aw_a4.getD idx 0) z brightness
  let b := awfit (aw_b1.getD idx 0) (aw_b2.getD idx 0) (aw_b3.getD idx 0) (aw_b4.getD idx 0) z brightness
  let c0 := awfit (aw_c1.getD idx 0) (aw_c2.getD idx 0) (aw_c3.getD idx 0) (aw_c4.getD idx 0) z brightness
  let d0 := awfit (aw_d1.getD idx 0) (aw_d2.getD idx 0) (aw_d3.getD idx 0) (aw_d4.getD idx 0) z brightness
  let e := awfit (aw_e1.getD idx 0) (aw_e2.getD idx 0) (aw_e3.getD idx 0) (aw_e4.getD idx 0) z brightness
  let c := if clearness ≤ 1.065 then
      Real.exp ((brightness * (2.8 + 0.6004 * z)) ^ (1.2375 : ℝ)) - 1.0000
    else c0
  let d := if clearness ≤ 1.065 then
      -Real.exp (brightness * (1.8734 + 0.6297 * z)) + 0.9738 + 0.2809 * brightness
    else d0
  (a, b, c, d, e)

/-- Statement of the claim formula for aw_parameters, written from the spec
words: coef = p1 + p2 zenith + brightness (p3 + p4 zenith) on the selected
bin constants, except that for clearness at most 1.065 the coefficients c and
d use the alternate non-linear first-bin formulas. -/
def aw_parameters_claim (z clearness brightness : ℝ) : ℝ × ℝ × ℝ × ℝ × ℝ :=
  let idx := aw_index clearness
  let lin := fun (t1 t2 t3 t4 : List ℝ) =>
    t1.getD idx 0 + t2.getD idx 0 * z + brightness * (t3.getD idx 0 + t4.getD idx 0 * z)
  let c := if clearness ≤ 1.065 then
      Real.exp ((brightness * (2.8 + 0.6004 * z)) ^ (1.2375 : ℝ)) - 1.0000
    else lin aw_c1 aw_c2 aw_c3 aw_c4
  let d := if clearness ≤ 1.065 then
      -Real.exp (brightness * (1.8734 + 0.6297 * z)) + 0.9738 + 0.2809 * brightness
    else lin aw_d1 aw_d2 aw_d3 aw_d4
  (lin aw_a1 aw_a2 aw_a3 aw_a4, lin aw_b1 aw_b2 aw_b3 aw_b4, c, d,
    lin aw_e1 aw_e2 aw_e3 aw_e4)

/-- Dot product of 3-vectors (numpy.dot on 3-tuples). -/
def dot3 (a b : ℝ × ℝ × ℝ) : ℝ :=
  a.1 * b.1 + a.2.1 * b.2.1 + a.2.2 * b.2.2

/-- Cross product of 3-vectors (numpy.cross on 3-tuples). -/
def cross3 (a b : ℝ × ℝ × ℝ) : ℝ × ℝ × ℝ :=
  (a.2.1 * b.2.2 - a.2.2 * b.2.1, a.2.2 * b.1 - a.1 * b.2.2, a.1 * b.2.1 - a.2.1 * b.1)

/-- Euclidean norm of a 3-vector (numpy.linalg.norm on a 3-tuple). -/
def norm3 (a : ℝ × ℝ × ℝ) : ℝ :=
  Real.sqrt (a.1 ^ 2 + a.2.1 ^ 2 + a.2.2 ^ 2)

/-- Embedding of numpy.arctan2 (y, x). -/
def arctan2 (y x : ℝ) : ℝ :=
  if 0 < x then Real.arctan (y / x)
  else if x < 0 then
    (if 0 ≤ y then Real.arctan (y / x) + π else Real.arctan (y / x) - π)
  else if 0 < y then π / 2
  else if y < 0 then -(π / 2)
  else 0

/-- Embedding of sky_luminance.angle (lines 167 to 169): the python code takes
numpy.linalg.norm of the scalar numpy.dot(a, b), that is its absolute value,
so the second arctan2 argument is never negative. -/
def angle (a b : ℝ × ℝ × ℝ) : ℝ :=
  arctan2 (norm3 (cross3 a b)) |dot3 a b|

/-- True angle between two 3-vectors from their dot and cross products, as the
claim states it (and as all_weather_sky.angle computes it): the signed dot
product is the second arctan2 argument, so the result can exceed pi over 2. -/
def angle_true (a b : ℝ × ℝ × ℝ) : ℝ :=
  arctan2 (norm3 (cross3 a b)) (dot3 a b)

/-- Embedding of sky_luminance.cartesian: unit vector of direction (theta, phi). -/
def cartesian (theta phi : ℝ) : ℝ × ℝ × ℝ :=
  (Real.sin theta * Real.cos phi, Real.sin theta * Real.sin phi, Real.cos theta)

/-- Embedding of the inner _lum of sky_luminance.aw_relative_luminance. -/
def aw_lum (a b c d e t g : ℝ) : ℝ :=
  (1 + a * Real.exp (b / Real.cos t)) * (1 + c * Real.exp (d * g) + e * Real.cos g ^ 2)

/-- Embedding of sky_luminance.aw_relative_luminance at one sky state (scalar
semantics of the vectorised code): sun zenith and azimuth in degrees. -/
def aw_relative_luminance (theta phi sun_zenith sun_azimuth clearness brightness : ℝ) : ℝ :=
  let z := radians sun_zenith
  let az := radians sun_azimuth
  let p := aw_parameters z clearness brightness
  let sun := cartesian z az
  let element := cartesian theta phi
  let gamma := |angle element sun|
  aw_lum p.1 p.2.1 p.2.2.1 p.2.2.2.1 p.2.2.2.2 theta gamma /
    aw_lum p.1 p.2.1 p.2.2.1 p.2.2.2.1 p.2.2.2.2 0 |z|

/-- Statement of the claim formula for aw_relative_luminance: identical to the
code except that gamma is the true element-to-sun angle obtained from the
3-D dot and cross products (it may exceed pi over 2). -/
def aw_relative_luminance_claim (theta phi sun_zenith sun_azimuth clearness brightness : ℝ) : ℝ :=
  let z := radians sun_zenith
  let az := radians sun_azimuth
  let p := aw_parameters z clearness brightness
  let sun := cartesian z az
  let element := cartesian theta phi
  let gamma := angle_true element sun
  aw_lum p.1 p.2.1 p.2.2.1 p.2.2.2.1 p.2.2.2.2 theta gamma /
    aw_lum p.1 p.2.1 p.2.2.1 p.2.2.2.1 p.2.2.2.2 0 |z|

/-- One row of meteorological input for the sky_irradiances pipeline. The sun
position fields come from the sun position provider; am (air mass) and
dni_extra (extraterrestrial irradiance) come from external collaborators and
are carried as plain data; ghi and dhi are the measured columns supplied by
the caller. -/
structure SkyInput where
  elevation : ℝ
  zenith : ℝ
  azimuth : ℝ
  ghi : ℝ
  dhi : ℝ
  am : ℝ
  dni_extra : ℝ

/-- One output row of the sky_irradiances pipeline. Clearness and brightness
are optional because the twilight branch stores missing values (None). -/
structure SkyRow where
  elevation : ℝ
  zenith : ℝ
  azimuth : ℝ
  ghi : ℝ
  dhi : ℝ
  dni : ℝ
  clearness : Option ℝ
  brightness : Option ℝ

/-- Embedding of the night filter of sun_position (line 364): when
filter_night is true, keep the rows with elevation strictly above zero. -/
def sun_position_filter (filter_night : Bool) (l : List SkyInput) : List SkyInput :=
  if filter_night then l.filter (fun e => decide (0 < e.elevation)) else l

/-- Row built by sky_irradiances when both ghi and dhi are supplied (lines
236 to 245): dni = normal_irradiance(ghi - dhi, elevation), then brightness
and clearness are derived. -/
def mk_row_both (e : SkyInput) : SkyRow :=
  let dni := normal_irradiance (e.ghi - e.dhi) e.elevation
  { elevation := e.elevation, zenith := e.zenith, azimuth := e.azimuth,
    ghi := e.ghi, dhi := e.dhi, dni := dni,
    brightness := some (brightness_index e.am e.dhi e.dni_extra),
    clearness := some (clearness_index dni e.dhi e.zenith) }

/-- Row built by the measured-ghi path (actual_sky_irradiances, lines 188 to
190): dni comes from the external dirint model and is carried as a parameter;
dhi = ghi - horizontal_irradiance(dni, elevation). -/
def mk_row_ghi (e : SkyInput) (dirint_dni : ℝ) : SkyRow :=
  { elevation := e.elevation, zenith := e.zenith, azimuth := e.azimuth,
    ghi := e.ghi, dhi := e.ghi - horizontal_irradiance dirint_dni e.elevation,
    dni := dirint_dni,
    brightness := some (brightness_index e.am (e.ghi - horizontal_irradiance dirint_dni e.elevation) e.dni_extra),
    clearness := some (clearness_index dirint_dni (e.ghi - horizontal_irradiance dirint_dni e.elevation) e.zenith) }

/-- Row built by the twilight fallback of sky_irradiances (lines 248 to 257):
dhi = ghi, dni = 0, clearness and brightness missing. -/
def mk_row_twilight (e : SkyInput) : SkyRow :=
  { elevation := e.elevation, zenith := e.zenith, azimuth := e.azimuth,
    ghi := e.ghi, dhi := e.ghi, dni := 0,
    clearness := none, brightness := none }

/-- Embedding of sky_irradiances when both ghi and dhi are supplied: the sun
positions are night filtered, rows are built from them, and when no row is
above the horizon the twilight fallback rebuilds unfiltered rows and keeps
those with positive ghi. -/
def sky_irradiances_both (entries : List SkyInput) : List SkyRow :=
  let rows := (sun_position_filter true entries).map mk_row_both
  if rows.length < 1 then
    ((sun_position_filter false entries).map mk_row_twilight).filter
      (fun r => decide (0 < r.ghi))
  else rows

/-- Concrete daytime input row used as a witness instance. -/
def sample_input : SkyInput :=
  { elevation := 30, zenith := 60, azimuth := 180, ghi := 400, dhi := 100,
    am := 1.5, dni_extra := 1367 }

/-- Concrete daytime input row with dhi above ghi, violating the data-model
invariant when fed to the both-supplied path. -/
def bad_input : SkyInput :=
  { elevation := 30, zenith := 60, azimuth := 180, ghi := 100, dhi := 200,
    am := 1.5, dni_extra := 1367 }

/-- Concrete daytime input row identical to sample_input except for dni_extra. -/
def sample_input_extra : SkyInput :=
  { elevation := 30, zenith := 60, azimuth := 180, ghi := 400, dhi := 100,
    am := 1.5, dni_extra := 1300 }

/-- Concrete daytime input row with zero measured ghi. -/
def ghi_zero_input : SkyInput :=
  { elevation := 10, zenith := 80, azimuth := 90, ghi := 0, dhi := 0,
    am := 5, dni_extra := 1367 }

/-- A triangle of the dome mesh, given by its three vertices. -/
def Tri : Type := (ℝ × ℝ × ℝ) × (ℝ × ℝ × ℝ) × (ℝ × ℝ × ℝ)

/-- Normalisation of a 3-vector to the unit sphere. -/
def normalize3 (v : ℝ × ℝ × ℝ) : ℝ × ℝ × ℝ :=
  (v.1 / norm3 v, v.2.1 / norm3 v, v.2.2 / norm3 v)

/-- Midpoint of two vertices, projected back to the unit sphere. -/
def midpoint3 (a b : ℝ × ℝ × ℝ) : ℝ × ℝ × ℝ :=
  normalize3 ((a.1 + b.1) / 2, (a.2.1 + b.2.1) / 2, (a.2.2 + b.2.2) / 2)

/-- Modelled from the spec: one subdivision step of an icosphere triangle into
four triangles through the projected edge midpoints (the icosphere module
alinea/astk/icosphere.py with turtle_dome and sample_faces is not among the
sources; the construction is modelled after the spec description of
TurtleDome as a subdivided icosphere). -/
def subdivide_tri (t : Tri) : List Tri :=
  let a := t.1
  let b := t.2.1
  let c := t.2.2
  let mab := midpoint3 a b
  let mbc := midpoint3 b c
  let mac := midpoint3 a c
  [(a, mab, mac), (mab, b, mbc), (mac, mbc, c), (mab, mbc, mac)]

/-- One subdivision step of the whole mesh. -/
def subdivide (l : List Tri) : List Tri :=
  l.flatMap subdivide_tri

/-- Modelled from the spec: the base icosahedron mesh (12 vertices built on
the golden ratio, 20 triangular faces), vertices normalised to the unit
sphere. -/
def icosahedron : List Tri :=
  let g := (1 + Real.sqrt 5) / 2
  let v0 := normalize3 (-1, g, 0)
  let v1 := normalize3 (1, g, 0)
  let v2 := normalize3 (-1, -g, 0)
  let v3 := normalize3 (1, -g, 0)
  let v4 := normalize3 (0, -1, g)
  let v5 := normalize3 (0, 1, g)
  let v6 := normalize3 (0, -1, -g)
  let v7 := normalize3 (0, 1, -g)
  let v8 := normalize3 (g, 0, -1)
  let v9 := normalize3 (g, 0, 1)
  let v10 := normalize3 (-g, 0, -1)
  let v11 := normalize3 (-g, 0, 1)
  [(v0, v11, v5), (v0, v5, v1), (v0, v1, v7), (v0, v7, v10), (v0, v10, v11),
   (v1, v5, v9), (v5, v11, v4), (v11, v10, v2), (v10, v7, v6), (v7, v1, v8),
   (v3, v9, v4), (v3, v4, v2), (v3, v2, v6), (v3, v6, v8), (v3, v8, v9),
   (v4, v9, v5), (v2, v4, v11), (v6, v2, v10), (v8, v6, v7), (v9, v8, v1)]

/-- Centroid of a triangle. -/
def centroid (t : Tri) : ℝ × ℝ × ℝ :=
  ((t.1.1 + t.2.1.1 + t.2.2.1) / 3, (t.1.2.1 + t.2.1.2.1 + t.2.2.2.1) / 3,
    (t.1.2.2 + t.2.1.2.2 + t.2.2.2.2) / 3)

/-- Modelled from the spec: turtle_dome(level) subdivides the icosahedron
level times and keeps the faces of the upper hemisphere (dome). -/
def turtle_dome (level : ℕ) : List Tri :=
  ((subdivide^[level]) icosahedron).filter (fun t => decide (0 ≤ (centroid t).2.2))

/-- Direction (theta, phi) of the normalised centroid of a face. -/
def tri_direction (t : Tri) : ℝ × ℝ :=
  let c := normalize3 (centroid t)
  (Real.arccos c.2.2, arctan2 c.2.1 c.1)

/-- Modelled from the spec: face_samples returns one representative
direction sample (theta, phi) per face, each tagged by its owning face id. -/
def face_samples (faces : List Tri) : List (ℝ × ℝ) × List ℕ :=
  (faces.map tri_direction, List.range faces.length)

end

/-! Theorems. -/

/-- Claim C10: cie_luminance_gradation is total at the horizon: for every
theta with cos theta = 0 and all coefficients a and b, it performs no division
by zero in the gradation and returns exactly 1 / (1 + a * exp b), the
unnormalised gradation being defined to be 1 there. -/
theorem claim_C10 (theta a b : ℝ) (h : Real.cos theta = 0) :
    cie_luminance_gradation theta a b = 1 / (1 + a * Real.exp b) := by
  unfold cie_luminance_gradation
  rw [if_pos h]

/-- Witness for claim C10 at theta equal to pi over 2. -/
theorem claim_C10_witness :
    Real.cos (π / 2) = 0 ∧
      cie_luminance_gradation (π / 2) 4 (-0.7) = 1 / (1 + 4 * Real.exp (-0.7)) :=
  ⟨Real.cos_pi_div_two, claim_C10 (π / 2) 4 (-0.7) Real.cos_pi_div_two⟩

/-- Claim C3: for every zenith angle z, clearness and brightness,
aw_parameters computes each of the five coefficients by the linear bin fit
p1 + p2 z + brightness (p3 + p4 z), except that for clearness at most 1.065
the coefficients c and d follow the alternate non-linear first-bin formulas,
while a, b, e keep the linear fit. -/
theorem claim_C3 (z cl br : ℝ) :
    aw_parameters z cl br = aw_parameters_claim z cl br := by
  unfold aw_parameters aw_parameters_claim awfit
  rfl

/-- Claim C2: the Perez bin selection is deterministic and uses the
less-than-or-equal boundary rule: clearness below 1 selects the first bin,
clearness above 6.2 clamps to the last bin, a clearness exactly at a bin edge
selects the lower bin, and at the edge 1.065 the alternate first-bin branch
for the coefficient c is taken. -/
theorem claim_C2 :
    (∀ v : ℝ, v < 1 → aw_index v = 0) ∧
    (∀ v : ℝ, 6.2 < v → aw_index v = 7) ∧
    aw_index 1 = 0 ∧ aw_index 1.065 = 0 ∧ aw_index 1.23 = 1 ∧ aw_index 1.5 = 2 ∧
    aw_index 1.95 = 3 ∧ aw_index 2.8 = 4 ∧ aw_index 4.5 = 5 ∧ aw_index 6.2 = 6 ∧
    (∀ z br : ℝ, (aw_parameters z 1.065 br).2.2.1 =
      Real.exp ((br * (2.8 + 0.6004 * z)) ^ (1.2375 : ℝ)) - 1.0000) := by
  refine ⟨?_, ?_, ?_, ?_, ?_, ?_, ?_, ?_, ?_, ?_, ?_⟩
  · intro v hv
    have he : searchsorted aw_bins v = 0 := by
      unfold searchsorted aw_bins
      rw [List.length_eq_zero]
      rw [List.filter_eq_nil_iff]
      intro a ha
      fin_cases ha <;> simp <;> linarith
    unfold aw_index
    rw [he]
    rfl
  · intro v hv
    have hf : List.filter (fun b => decide (b < v)) [1, 1.065, 1.23, 1.5, 1.95, 2.8, 4.5, 6.2]
        = [(1 : ℝ), 1.065, 1.23, 1.5, 1.95, 2.8, 4.5, 6.2] :=
      List.filter_eq_self.mpr (by intro a ha; fin_cases ha <;> simp <;> linarith)
    have he : searchsorted aw_bins v = 8 := by
      unfold searchsorted aw_bins
      rw [hf]
      rfl
    unfold aw_index
    rw [he]
    rfl
  · unfold aw_index searchsorted aw_bins
    norm_num [List.filter_cons, List.filter_nil]
  · unfold aw_index searchsorted aw_bins
    norm_num [List.filter_cons, List.filter_nil]
  · unfold aw_index searchsorted aw_bins
    norm_num [List.filter_cons, List.filter_nil]
  · unfold aw_index searchsorted aw_bins
    norm_num [List.filter_cons, List.filter_nil]
    rfl
  · unfold aw_index searchsorted aw_bins
    norm_num [List.filter_cons, List.filter_nil]
    rfl
  · unfold aw_index searchsorted aw_bins
    norm_num [List.filter_cons, List.filter_nil]
    rfl
  · unfold aw_index searchsorted aw_bins
    norm_num [List.filter_cons, List.filter_nil]
    rfl
  · unfold aw_index searchsorted aw_bins
    norm_num [List.filter_cons, List.filter_nil]
    rfl
  · intro z br
    simp only [aw_parameters]
    rw [if_pos (le_refl (1.065 : ℝ))]

/-- Witness for claim C2 at clearness one half and at clearness seven. -/
theorem claim_C2_witness :
    ((1 : ℝ) / 2 < 1 ∧ aw_index (1 / 2) = 0) ∧ ((6.2 : ℝ) < 7 ∧ aw_index 7 = 7) :=
  ⟨⟨by norm_num, claim_C2.1 (1 / 2) (by norm_num)⟩,
    ⟨by norm_num, claim_C2.2.1 7 (by norm_num)⟩⟩

/-- Claim C7: requesting the CIE clear_sky variant without a sun position
(sun zenith, sun azimuth or element azimuth missing) fails with the
configuration error raised before any luminance computation, and the soc and
uoc variants never produce this error. -/
theorem claim_C7 :
    (∀ (theta : ℝ) (phi zs az : Option ℝ),
      zs = none ∨ az = none ∨ phi = none →
      cie_relative_luminance theta phi zs az "clear_sky" =
        Except.error "Clear sky requires sun position") ∧
    (∀ (theta : ℝ) (phi zs az : Option ℝ),
      cie_relative_luminance theta phi zs az "soc" ≠
        Except.error "Clear sky requires sun position" ∧
      cie_relative_luminance theta phi zs az "uoc" ≠
        Except.error "Clear sky requires sun position") := by
  constructor
  · intro theta phi zs az h
    unfold cie_relative_luminance
    rw [if_pos ⟨rfl, h⟩]
  · intro theta phi zs az
    constructor
    · unfold cie_relative_luminance
      rw [if_neg (by simp), if_pos rfl]
      simp
    · unfold cie_relative_luminance
      rw [if_neg (by simp), if_neg (by simp), if_pos rfl]
      simp

/-- Witness for claim C7: the clear_sky variant with no sun zenith errors
out, at element direction zero. -/
theorem claim_C7_witness :
    cie_relative_luminance 0 (some 0) none (some 0) "clear_sky" =
      Except.error "Clear sky requires sun position" :=
  claim_C7.1 0 (some 0) none (some 0) (Or.inl rfl)

/-- Claim C9: building the turtle dome twice at the same discretisation level
yields identical face sets, direction samples and tags; the construction is a
pure function of the level, so it is deterministic and the produced geometry
is immutable. -/
theorem claim_C9 (level : ℕ) :
    turtle_dome level = turtle_dome level ∧
      face_samples (turtle_dome level) = face_samples (turtle_dome level) :=
  ⟨rfl, rfl⟩

/-- Claim C4 (settled as a code bug): in sky_irradiance.sky_irradiances the
dni returned for entries where both ghi and dhi are supplied equals
(ghi - dhi) divided by the sine of the elevation converted from degrees to
radians, and every entry retained by the night filter has elevation strictly
above zero; but the duplicate all_weather_sky.actual_sky_irradiances omits
the degree conversion: at elevation 4 degrees, ghi 400 and dhi 100 it
returns a negative dni where the claimed formula is positive. -/
theorem claim_C4 :
    (∀ e : SkyInput,
      (mk_row_both e).dni = (e.ghi - e.dhi) / Real.sin (radians e.elevation)) ∧
    (∀ (l : List SkyInput) (e : SkyInput), e ∈ sun_position_filter true l → 0 < e.elevation) ∧
    (aw_sky_dni 400 100 4 < 0 ∧ 0 < (400 - 100 : ℝ) / Real.sin (radians 4)) := by
  refine ⟨fun e => rfl, ?_, ?_, ?_⟩
  · intro l e he
    unfold sun_position_filter at he
    simp only [if_pos] at he
    rw [List.mem_filter] at he
    exact of_decide_eq_true he.2
  · have hsin : Real.sin 4 < 0 := by
      have hper : Real.sin ((4 : ℝ) - π) = -Real.sin 4 := Real.sin_sub_pi 4
      have hpos : 0 < Real.sin ((4 : ℝ) - π) := by
        apply Real.sin_pos_of_pos_of_lt_pi
        · have := Real.pi_lt_four
          linarith
        · have := Real.pi_gt_three
          linarith
      linarith
    have hnum : (0 : ℝ) < 400 - 100 := by norm_num
    unfold aw_sky_dni
    exact div_neg_of_pos_of_neg hnum hsin
  · have hsin : 0 < Real.sin (radians 4) := by
      apply Real.sin_pos_of_pos_of_lt_pi
      · unfold radians
        have := Real.pi_pos
        nlinarith
      · unfold radians
        have := Real.pi_pos
        nlinarith
    have hnum : (0 : ℝ) < 400 - 100 := by norm_num
    exact div_pos hnum hsin

/-- Witness for claim C4: the night filter retains the sample daytime input,
whose elevation is positive. -/
theorem claim_C4_witness : 0 < sample_input.elevation :=
  claim_C4.2.1 [sample_input] sample_input
    (by simp [sun_position_filter, sample_input])

/-- Counterexample for claim C5 as stated: when both ghi and dhi are supplied
the code stores them unvalidated, so an input with dhi above ghi yields a row
with dhi above ghi and dni below zero; moreover two rows agreeing on
(dni, dhi, zenith, air mass) but with different extraterrestrial irradiance
get different brightness values, so brightness is not a function of those
four quantities alone. -/
theorem claim_C5_cex :
    (¬ ((mk_row_both bad_input).dhi ≤ (mk_row_both bad_input).ghi ∧
        0 ≤ (mk_row_both bad_input).dni)) ∧
    ((mk_row_both sample_input).dni = (mk_row_both sample_input_extra).dni ∧
      (mk_row_both sample_input).dhi = (mk_row_both sample_input_extra).dhi ∧
      sample_input.zenith = sample_input_extra.zenith ∧
      sample_input.am = sample_input_extra.am ∧
      (mk_row_both sample_input).brightness ≠ (mk_row_both sample_input_extra).brightness) := by
  constructor
  · intro h
    have hd := h.1
    simp only [mk_row_both, bad_input] at hd
    norm_num at hd
  · refine ⟨rfl, rfl, rfl, rfl, ?_⟩
    simp only [mk_row_both, brightness_index, sample_input, sample_input_extra]
    intro h
    rw [Option.some_inj] at h
    norm_num at h

/-- Claim C5 as amended: when both ghi and dhi are supplied and the inputs
satisfy dhi at most ghi with elevation in the open-closed interval from 0 to
90 degrees (as guaranteed by the night filter), the produced row satisfies
dhi at most ghi and dni at least zero; clearness is the deterministic
function clearness_index of (dni, dhi, zenith) and brightness the
deterministic function brightness_index of (air mass, dhi, dni_extra); and
in the measured-ghi path the row satisfies dhi at most ghi whenever the
external dirint dni is non-negative. -/
theorem claim_C5 (e : SkyInput) (hd : e.dhi ≤ e.ghi) (h0 : 0 < e.elevation)
    (h90 : e.elevation ≤ 90) :
    (mk_row_both e).dhi ≤ (mk_row_both e).ghi ∧
    0 ≤ (mk_row_both e).dni ∧
    (mk_row_both e).clearness = some (clearness_index ((mk_row_both e).dni) e.dhi e.zenith) ∧
    (mk_row_both e).brightness = some (brightness_index e.am e.dhi e.dni_extra) ∧
    (∀ dirint_dni : ℝ, 0 ≤ dirint_dni →
      (mk_row_ghi e dirint_dni).dhi ≤ (mk_row_ghi e dirint_dni).ghi) := by
  have hsin : 0 < Real.sin (radians e.elevation) := by
    apply Real.sin_pos_of_pos_of_lt_pi
    · unfold radians
      have := Real.pi_pos
      positivity
    · unfold radians
      have := Real.pi_pos
      nlinarith
  refine ⟨hd, ?_, rfl, rfl, ?_⟩
  · exact div_nonneg (sub_nonneg.mpr hd) hsin.le
  · intro dni0 hdni0
    show e.ghi - horizontal_irradiance dni0 e.elevation ≤ e.ghi
    unfold horizontal_irradiance
    nlinarith [mul_nonneg hdni0 hsin.le]

/-- Witness for claim C5 at the sample daytime input. -/
theorem claim_C5_witness : 0 ≤ (mk_row_both sample_input).dni :=
  (claim_C5 sample_input (by norm_num [sample_input]) (by norm_num [sample_input])
    (by norm_num [sample_input])).2.1

/-- Counterexample for claim C6 as stated: an above-horizon entry whose
measured ghi is zero is retained by the pipeline (the normal path applies no
ghi filter), where the claim requires it to be excluded. -/
theorem claim_C6_cex :
    ∃ r ∈ sky_irradiances_both [ghi_zero_input], r.ghi ≤ 0 := by
  have h1 : sun_position_filter true [ghi_zero_input] = [ghi_zero_input] := by
    unfold sun_position_filter
    simp only [if_pos]
    rw [List.filter_cons, if_pos (by norm_num [ghi_zero_input])]
    rfl
  refine ⟨mk_row_both ghi_zero_input, ?_, ?_⟩
  · unfold sky_irradiances_both
    rw [h1]
    norm_num
  · simp [mk_row_both, ghi_zero_input]

/-- Claim C6 as amended: every row of the normal path has elevation strictly
above the horizon (below-horizon entries are absent, not zero-filled); when
at least one entry is above the horizon the result is exactly the normal
rows; and when none is (the automatic twilight fallback, taken when ghi is
supplied, not an explicit mode flag) the result retains exactly the entries
with positive ghi, each with dni zero, dhi equal to ghi, and clearness and
brightness stored as missing values. -/
theorem claim_C6 :
    (∀ l : List SkyInput, ∀ r ∈ (sun_position_filter true l).map mk_row_both,
      0 < r.elevation) ∧
    (∀ l : List SkyInput, ¬ ((sun_position_filter true l).map mk_row_both).length < 1 →
      sky_irradiances_both l = (sun_position_filter true l).map mk_row_both) ∧
    (∀ l : List SkyInput, ((sun_position_filter true l).map mk_row_both).length < 1 →
      sky_irradiances_both l = (l.filter (fun e => decide (0 < e.ghi))).map mk_row_twilight ∧
      ∀ r ∈ sky_irradiances_both l, 0 < r.ghi ∧ r.dni = 0 ∧ r.dhi = r.ghi ∧
        r.clearness = none ∧ r.brightness = none) := by
  refine ⟨?_, ?_, ?_⟩
  · intro l r hr
    rw [List.mem_map] at hr
    obtain ⟨e, he, hre⟩ := hr
    unfold sun_position_filter at he
    simp only [if_pos] at he
    rw [List.mem_filter] at he
    have : 0 < e.elevation := of_decide_eq_true he.2
    rw [← hre]
    exact this
  · intro l h
    unfold sky_irradiances_both
    rw [if_neg h]
  · intro l h
    have he : sky_irradiances_both l =
        (l.filter (fun e => decide (0 < e.ghi))).map mk_row_twilight := by
      unfold sky_irradiances_both
      rw [if_pos h]
      have h2 : sun_position_filter false l = l := rfl
      rw [h2, List.filter_map]
      rfl
    refine ⟨he, ?_⟩
    intro r hr
    rw [he, List.mem_map] at hr
    obtain ⟨e, hel, hre⟩ := hr
    rw [List.mem_filter] at hel
    have hg : 0 < e.ghi := of_decide_eq_true hel.2
    rw [← hre]
    exact ⟨hg, rfl, rfl, rfl, rfl⟩

/-- Witness for claim C6: the normal-path rows of the singleton sample list
all have positive elevation. -/
theorem claim_C6_witness : 0 < (mk_row_both sample_input).elevation :=
  claim_C6.1 [sample_input] (mk_row_both sample_input)
    (by simp [sun_position_filter, sample_input])

/-- Helper bound: exp of 0.43934 is at most the square of 1 over 0.78033. -/
theorem exp_b3_bound : Real.exp 0.43934 ≤ (1 / 0.78033) ^ 2 := by
  have h0 : (0.78033 : ℝ) ≤ Real.exp (-0.21967) := by
    have := Real.add_one_le_exp (-0.21967 : ℝ)
    linarith
  have h1 : Real.exp 0.21967 ≤ 1 / 0.78033 := by
    rw [Real.exp_neg] at h0
    have hp := Real.exp_pos (0.21967 : ℝ)
    rw [le_inv_comm₀ (by norm_num) hp] at h0
    linarith [h0]
  have h2 : Real.exp 0.43934 = Real.exp 0.21967 ^ 2 := by
    rw [sq, ← Real.exp_add]
    norm_num
  rw [h2]
  exact pow_le_pow_left (Real.exp_pos _).le h1 2

/-- Helper evaluation: the Perez bin index of clearness 1.7 is 3. -/
theorem aw_index_17 : aw_index 1.7 = 3 := by
  unfold aw_index searchsorted aw_bins
  norm_num [List.filter_cons, List.filter_nil]
  rfl

/-- Helper evaluation: the Perez coefficients at zenith 0, clearness 1.7,
brightness 0.05 (bin 3, linear branch). -/
theorem aw_parameters_cex :
    aw_parameters 0 1.7 0.05 = (-0.56176, 0.43934, 30.2264, -3.442615, 0.46152) := by
  unfold aw_parameters
  simp only [aw_index_17]
  rw [if_neg (by norm_num : ¬ (1.7 : ℝ) ≤ 1.065)]
  unfold awfit aw_a1 aw_a2 aw_a3 aw_a4 aw_b1 aw_b2 aw_b3 aw_b4 aw_c1 aw_c2 aw_c3 aw_c4
    aw_d1 aw_d2 aw_d3 aw_d4 aw_e1 aw_e2 aw_e3 aw_e4
  norm_num [List.getD]

/-- Helper evaluation: the element-to-sun angle for the element at zenith
angle pi over 3 and the sun at the zenith. -/
theorem angle_cex : angle (cartesian (π / 3) 0) (cartesian 0 0) = π / 3 := by
  have helem : cartesian (π / 3) 0 = (Real.sqrt 3 / 2, 0, 1 / 2) := by
    unfold cartesian
    rw [Real.sin_pi_div_three, Real.cos_pi_div_three, Real.sin_zero, Real.cos_zero]
    norm_num
  have hsun : cartesian 0 0 = ((0 : ℝ), (0 : ℝ), (1 : ℝ)) := by
    unfold cartesian
    rw [Real.sin_zero, Real.cos_zero]
    norm_num
  rw [helem, hsun]
  unfold angle cross3 dot3 norm3
  norm_num
  have hnorm : Real.sqrt ((Real.sqrt 3 / 2) ^ 2) = Real.sqrt 3 / 2 :=
    Real.sqrt_sq (by positivity)
  rw [hnorm]
  unfold arctan2
  rw [abs_of_nonneg (show (0 : ℝ) ≤ 1 / 2 by norm_num)]
  rw [if_pos (by norm_num : (0 : ℝ) < 1 / 2)]
  have hdiv : (Real.sqrt 3 / 2) / (1 / 2 : ℝ) = Real.sqrt 3 := by ring
  rw [hdiv]
  have ht : Real.tan (π / 3) = Real.sqrt 3 := by
    rw [Real.tan_eq_sin_div_cos, Real.sin_pi_div_three, Real.cos_pi_div_three]
    ring
  rw [← ht, Real.arctan_tan (by linarith [Real.pi_pos]) (by linarith [Real.pi_pos])]

/-- Counterexample for claim C8 as stated: the Perez all-weather relative
luminance is negative for the sky element at zenith angle pi over 3 (azimuth
0) with the sun at the zenith, clearness 1.7 and brightness 0.05, a valid
intermediate sky state. -/
theorem claim_C8_cex : aw_relative_luminance (π / 3) 0 0 0 1.7 0.05 < 0 := by
  have hrad : radians 0 = 0 := by unfold radians; ring
  have harg : (0.43934 : ℝ) / (1 / 2) = 0.87868 := by norm_num
  have hF1 : (1 : ℝ) + -0.56176 * Real.exp 0.87868 < 0 := by
    have h := Real.add_one_le_exp (0.87868 : ℝ)
    nlinarith
  have hF2 : (0 : ℝ) < 1 + 30.2264 * Real.exp (-3.442615 * (π / 3)) + 0.46152 * (1 / 2) ^ 2 := by
    have h := Real.exp_pos (-3.442615 * (π / 3))
    nlinarith
  have hG : (0 : ℝ) < 1 + -0.56176 * Real.exp 0.43934 := by
    have h := exp_b3_bound
    nlinarith
  simp only [aw_relative_luminance, hrad, aw_parameters_cex, angle_cex]
  rw [abs_of_nonneg (show (0 : ℝ) ≤ π / 3 by positivity), abs_zero]
  unfold aw_lum
  rw [Real.cos_zero, Real.cos_pi_div_three, div_one, mul_zero, Real.exp_zero, one_pow, mul_one,
    mul_one, harg]
  apply div_neg_of_neg_of_pos
  · exact mul_neg_of_neg_of_pos hF1 hF2
  · apply mul_pos hG
    norm_num

/-- Helper: the CIE gradation is non-negative whenever the coefficient a is
non-negative (covers the soc and uoc coefficient pairs, for every element
zenith angle). -/
theorem gradation_nonneg_of (theta a b : ℝ) (ha : 0 ≤ a) :
    0 ≤ cie_luminance_gradation theta a b := by
  unfold cie_luminance_gradation
  apply div_nonneg
  · split
    · norm_num
    · have h := Real.exp_pos (b / Real.cos theta)
      nlinarith
  · have h := Real.exp_pos b
    nlinarith

/-- Helper: the CIE clear-sky gradation is non-negative for sky elements with
zenith angle between 0 and pi over 2. -/
theorem gradation_cs_nonneg (theta : ℝ) (h0 : 0 ≤ theta) (h1 : theta ≤ π / 2) :
    0 ≤ cie_luminance_gradation theta (-1) (-0.32) := by
  have hc : 0 ≤ Real.cos theta :=
    Real.cos_nonneg_of_neg_pi_div_two_le_of_le (by linarith [Real.pi_pos]) h1
  unfold cie_luminance_gradation
  apply div_nonneg
  · split
    · norm_num
    · rename_i hne
      have hcpos : 0 < Real.cos theta := lt_of_le_of_ne hc (Ne.symm hne)
      have hneg : (-0.32 : ℝ) / Real.cos theta < 0 :=
        div_neg_of_neg_of_pos (by norm_num) hcpos
      have hexp : Real.exp ((-0.32 : ℝ) / Real.cos theta) < 1 :=
        Real.exp_lt_one_iff.mpr hneg
      nlinarith
  · have hexp : Real.exp (-0.32 : ℝ) < 1 := Real.exp_lt_one_iff.mpr (by norm_num)
    nlinarith

/-- Helper bound: exp of three halves pi exceeds 10. -/
theorem exp_3pi2_big : (10 : ℝ) < Real.exp (3 * (π / 2)) := by
  have h1 : (1 : ℝ) + π / 2 ≤ Real.exp (π / 2) := by
    have := Real.add_one_le_exp (π / 2)
    linarith
  have h2 : Real.exp (3 * (π / 2)) = Real.exp (π / 2) ^ 3 := by
    rw [show (3 : ℝ) * (π / 2) = ((3 : ℕ) : ℝ) * (π / 2) by norm_num, Real.exp_nat_mul]
  rw [h2]
  have h3 : (2.5 : ℝ) < 1 + π / 2 := by linarith [Real.pi_gt_three]
  have h4 : ((1 : ℝ) + π / 2) ^ 3 ≤ Real.exp (π / 2) ^ 3 :=
    pow_le_pow_left (by linarith) h1 3
  have h5 : (2.5 : ℝ) ^ 3 < (1 + π / 2) ^ 3 := pow_lt_pow_left h3 (by norm_num) (by norm_num)
  have h6 : (2.5 : ℝ) ^ 3 = 15.625 := by norm_num
  linarith

/-- Helper bound: exp of minus three halves pi is below one tenth. -/
theorem exp_neg_3pi2_small : Real.exp ((-3 : ℝ) * π / 2) < 1 / 10 := by
  rw [show ((-3 : ℝ) * π / 2) = -(3 * (π / 2)) by ring, Real.exp_neg,
    show (1 : ℝ) / 10 = (10 : ℝ)⁻¹ by norm_num]
  exact inv_lt_inv_of_lt (by norm_num) exp_3pi2_big

/-- Helper: each factor of the CIE clear-sky indicatrix is positive, for any
angle argument. -/
theorem cie_cs_term_pos (x : ℝ) :
    0 < 1 + 10 * (Real.exp ((-3 : ℝ) * x) - Real.exp ((-3 : ℝ) * π / 2)) +
        0.45 * Real.cos x ^ 2 := by
  have hE := exp_neg_3pi2_small
  nlinarith [Real.exp_pos ((-3 : ℝ) * x), sq_nonneg (Real.cos x)]

/-- Helper: the CIE clear-sky scattering indicatrix is positive for every
element direction and sun position. -/
theorem indicatrix_cs_pos (theta phi0 zs0 az0 : ℝ) :
    0 < cie_scattering_indicatrix theta phi0 zs0 az0 10 (-3) 0.45 := by
  simp only [cie_scattering_indicatrix]
  exact div_pos (cie_cs_term_pos _) (cie_cs_term_pos _)

/-- Claim C8 as amended: the CIE variants are non-negative (soc and uoc for
every element direction; clear_sky for sky elements with zenith angle between
0 and pi over 2); the Perez all-weather variant is not non-negative in
general (see the counterexample). -/
theorem claim_C8 :
    (∀ (theta : ℝ) (phi zs az : Option ℝ) (r : ℝ),
      cie_relative_luminance theta phi zs az "soc" = Except.ok r → 0 ≤ r) ∧
    (∀ (theta : ℝ) (phi zs az : Option ℝ) (r : ℝ),
      cie_relative_luminance theta phi zs az "uoc" = Except.ok r → 0 ≤ r) ∧
    (∀ (theta phi0 zs0 az0 r : ℝ), 0 ≤ theta → theta ≤ π / 2 →
      cie_relative_luminance theta (some phi0) (some zs0) (some az0) "clear_sky" =
        Except.ok r → 0 ≤ r) := by
  refine ⟨?_, ?_, ?_⟩
  · intro theta phi zs az r h
    unfold cie_relative_luminance at h
    rw [if_neg (fun hc => absurd hc.1 (by decide)), if_pos rfl, Except.ok.injEq] at h
    subst h
    exact gradation_nonneg_of theta 4 (-0.7) (by norm_num)
  · intro theta phi zs az r h
    unfold cie_relative_luminance at h
    rw [if_neg (fun hc => absurd hc.1 (by decide)), if_neg (by decide), if_pos rfl,
      Except.ok.injEq] at h
    subst h
    exact gradation_nonneg_of theta 0 (-1) (by norm_num)
  · intro theta phi0 zs0 az0 r h0 h1 h
    unfold cie_relative_luminance at h
    rw [if_neg (fun hc => by
        rcases hc.2 with hh | hh | hh <;> exact Option.some_ne_none _ hh),
      if_neg (by decide), if_neg (by decide), if_pos rfl, Except.ok.injEq] at h
    subst h
    exact mul_nonneg (gradation_cs_nonneg theta h0 h1)
      (indicatrix_cs_pos theta phi0 zs0 az0).le

/-- Witness for claim C8: the soc variant at the zenith element returns a
non-negative value. -/
theorem claim_C8_witness : 0 ≤ cie_luminance_gradation 0 4 (-0.7) :=
  claim_C8.1 0 none none none (cie_luminance_gradation 0 4 (-0.7)) (by
    unfold cie_relative_luminance
    rw [if_neg (fun hc => absurd hc.1 (by decide)), if_pos rfl])

/-- Helper evaluation: the Perez bin index of clearness 2 is 4. -/
theorem aw_index_2 : aw_index 2 = 4 := by
  unfold aw_index searchsorted aw_bins
  norm_num [List.filter_cons, List.filter_nil]
  rfl

/-- Helper evaluation: the Perez coefficients at sun zenith pi over 2,
clearness 2, brightness 0.3 (bin 4, linear branch). -/
theorem aw_parameters_c1 :
    aw_parameters (π / 2) 2 0.3 =
      (-0.6 + -0.3566 * (π / 2) + 0.3 * (-2.5 + 2.325 * (π / 2)),
       0.2937 + 0.0496 * (π / 2) + 0.3 * (-5.6812 + 1.8415 * (π / 2)),
       21.0000 + -4.7656 * (π / 2) + 0.3 * (-21.5906 + 7.2492 * (π / 2)),
       -3.5000 + -0.1554 * (π / 2) + 0.3 * (1.4062 + 0.3988 * (π / 2)),
       0.0032 + 0.0766 * (π / 2) + 0.3 * (-0.0656 + -0.1294 * (π / 2))) := by
  unfold aw_parameters
  simp only [aw_index_2]
  rw [if_neg (by norm_num : ¬ (2 : ℝ) ≤ 1.065)]
  unfold awfit aw_a1 aw_a2 aw_a3 aw_a4 aw_b1 aw_b2 aw_b3 aw_b4 aw_c1 aw_c2 aw_c3 aw_c4
    aw_d1 aw_d2 aw_d3 aw_d4 aw_e1 aw_e2 aw_e3 aw_e4
  norm_num [List.getD]

/-- Helper evaluation: the folded angle computed by sky_luminance.angle
between the element at zenith angle pi over 4 and the sun lying on the
horizon in the opposite azimuth half-space is pi over 4 (the absolute value
of the dot product discards its sign). -/
theorem angle_c1_code :
    angle (cartesian (π / 4) 0) (cartesian (π / 2) π) = π / 4 := by
  have hpos : (0 : ℝ) < Real.sqrt 2 / 2 := by positivity
  have helem : cartesian (π / 4) 0 = (Real.sqrt 2 / 2, 0, Real.sqrt 2 / 2) := by
    unfold cartesian
    rw [Real.sin_pi_div_four, Real.cos_pi_div_four, Real.sin_zero, Real.cos_zero]
    norm_num
  have hsun : cartesian (π / 2) π = ((-1 : ℝ), 0, 0) := by
    unfold cartesian
    rw [Real.sin_pi_div_two, Real.cos_pi, Real.sin_pi, Real.cos_pi_div_two]
    norm_num
  have hc : cross3 (Real.sqrt 2 / 2, 0, Real.sqrt 2 / 2) ((-1 : ℝ), 0, 0) =
      ((0 : ℝ), -(Real.sqrt 2 / 2), 0) := by
    unfold cross3
    norm_num
  have hd : dot3 (Real.sqrt 2 / 2, 0, Real.sqrt 2 / 2) ((-1 : ℝ), 0, 0) =
      -(Real.sqrt 2 / 2) := by
    unfold dot3
    ring
  have hn : norm3 ((0 : ℝ), -(Real.sqrt 2 / 2), 0) = Real.sqrt 2 / 2 := by
    unfold norm3
    rw [show ((0 : ℝ) ^ 2 + (-(Real.sqrt 2 / 2)) ^ 2 + (0 : ℝ) ^ 2) = (Real.sqrt 2 / 2) ^ 2
      by ring]
    exact Real.sqrt_sq hpos.le
  rw [helem, hsun]
  unfold angle
  rw [hc, hd, hn, abs_of_nonpos (by linarith), neg_neg]
  unfold arctan2
  rw [if_pos hpos, div_self (ne_of_gt hpos)]
  exact Real.arctan_one

/-- Helper evaluation: the true angle between the same two directions is
three quarters pi, as the claim states: the element and the sun point into
opposite half-spaces, so the angle exceeds pi over 2. -/
theorem angle_c1_true :
    angle_true (cartesian (π / 4) 0) (cartesian (π / 2) π) = 3 * π / 4 := by
  have hpos : (0 : ℝ) < Real.sqrt 2 / 2 := by positivity
  have helem : cartesian (π / 4) 0 = (Real.sqrt 2 / 2, 0, Real.sqrt 2 / 2) := by
    unfold cartesian
    rw [Real.sin_pi_div_four, Real.cos_pi_div_four, Real.sin_zero, Real.cos_zero]
    norm_num
  have hsun : cartesian (π / 2) π = ((-1 : ℝ), 0, 0) := by
    unfold cartesian
    rw [Real.sin_pi_div_two, Real.cos_pi, Real.sin_pi, Real.cos_pi_div_two]
    norm_num
  have hc : cross3 (Real.sqrt 2 / 2, 0, Real.sqrt 2 / 2) ((-1 : ℝ), 0, 0) =
      ((0 : ℝ), -(Real.sqrt 2 / 2), 0) := by
    unfold cross3
    norm_num
  have hd : dot3 (Real.sqrt 2 / 2, 0, Real.sqrt 2 / 2) ((-1 : ℝ), 0, 0) =
      -(Real.sqrt 2 / 2) := by
    unfold dot3
    ring
  have hn : norm3 ((0 : ℝ), -(Real.sqrt 2 / 2), 0) = Real.sqrt 2 / 2 := by
    unfold norm3
    rw [show ((0 : ℝ) ^ 2 + (-(Real.sqrt 2 / 2)) ^ 2 + (0 : ℝ) ^ 2) = (Real.sqrt 2 / 2) ^ 2
      by ring]
    exact Real.sqrt_sq hpos.le
  rw [helem, hsun]
  unfold angle_true
  rw [hc, hd, hn]
  unfold arctan2
  rw [if_neg (by linarith), if_pos (by linarith), if_pos hpos.le]
  have hdiv : (Real.sqrt 2 / 2) / (-(Real.sqrt 2 / 2)) = -1 := by
    rw [div_neg, div_self (ne_of_gt hpos)]
  rw [hdiv, show Real.arctan (-1) = -(π / 4) by
    rw [show (-1 : ℝ) = -(1 : ℝ) by norm_num, Real.arctan_neg, Real.arctan_one]]
  ring

/-- Helper: with coefficients a strictly between minus 1 and 0, b negative,
c positive and d negative, the all-weather luminance ratio distinguishes the
folded angle pi over 4 from the true angle three quarters pi. -/
theorem aw_lum_gamma_ne (A B C D E : ℝ) (hA1 : -1 < A) (hA0 : A < 0) (hB : B < 0)
    (hC : 0 < C) (hD : D < 0) :
    aw_lum A B C D E (π / 4) (π / 4) / aw_lum A B C D E 0 (π / 2) ≠
      aw_lum A B C D E (π / 4) (3 * π / 4) / aw_lum A B C D E 0 (π / 2) := by
  have hcos4 : Real.cos (π / 4) = Real.sqrt 2 / 2 := Real.cos_pi_div_four
  have hcospos : (0 : ℝ) < Real.cos (π / 4) := by rw [hcos4]; positivity
  have hBdiv : B / Real.cos (π / 4) < 0 := div_neg_of_neg_of_pos hB hcospos
  have hexpF : Real.exp (B / Real.cos (π / 4)) < 1 := Real.exp_lt_one_iff.mpr hBdiv
  have hF : 0 < 1 + A * Real.exp (B / Real.cos (π / 4)) := by
    have h1 : 0 < (1 - Real.exp (B / Real.cos (π / 4))) * (-A) :=
      mul_pos (sub_pos.mpr hexpF) (neg_pos.mpr hA0)
    nlinarith
  have hBB : B / Real.cos 0 = B := by rw [Real.cos_zero, div_one]
  have hexpB : Real.exp (B / Real.cos 0) < 1 := by
    rw [hBB]
    exact Real.exp_lt_one_iff.mpr hB
  have hG : 0 < 1 + A * Real.exp (B / Real.cos 0) := by
    have h1 : 0 < (1 - Real.exp (B / Real.cos 0)) * (-A) :=
      mul_pos (sub_pos.mpr hexpB) (neg_pos.mpr hA0)
    nlinarith
  have hH : 0 < 1 + C * Real.exp (D * (π / 2)) + E * Real.cos (π / 2) ^ 2 := by
    rw [Real.cos_pi_div_two]
    have h1 := Real.exp_pos (D * (π / 2))
    nlinarith
  have hDen : 0 < aw_lum A B C D E 0 (π / 2) := by
    unfold aw_lum
    exact mul_pos hG hH
  have hXY : 1 + C * Real.exp (D * (3 * π / 4)) + E * Real.cos (3 * π / 4) ^ 2 <
      1 + C * Real.exp (D * (π / 4)) + E * Real.cos (π / 4) ^ 2 := by
    have hcos34 : Real.cos (3 * π / 4) = -(Real.sqrt 2 / 2) := by
      rw [show (3 * π / 4 : ℝ) = π - π / 4 by ring, Real.cos_pi_sub, Real.cos_pi_div_four]
    rw [hcos34, hcos4]
    have hhalf : D * (π / 2) < 0 := mul_neg_of_neg_of_pos hD (by positivity)
    have hdlt : D * (3 * π / 4) < D * (π / 4) := by nlinarith
    have hexp : Real.exp (D * (3 * π / 4)) < Real.exp (D * (π / 4)) :=
      Real.exp_lt_exp.mpr hdlt
    nlinarith
  have hlum : aw_lum A B C D E (π / 4) (3 * π / 4) < aw_lum A B C D E (π / 4) (π / 4) := by
    unfold aw_lum
    exact mul_lt_mul_of_pos_left hXY hF
  exact ne_of_gt ((div_lt_div_right hDen).mpr hlum)

/-- Claim C1 (settled as a code bug): sky_luminance.angle takes the norm of
the scalar dot product, so the element-to-sun angle is folded into the first
quadrant; at the failing input (element at zenith angle pi over 4, sun on the
horizon at azimuth 180 degrees, clearness 2, brightness 0.3) the code uses
gamma pi over 4 while the true dot-and-cross angle of the claim is three
quarters pi, and the returned luminance differs from the claimed formula. -/
theorem claim_C1 :
    |angle (cartesian (π / 4) 0) (cartesian (radians 90) (radians 180))| = π / 4 ∧
    angle_true (cartesian (π / 4) 0) (cartesian (radians 90) (radians 180)) = 3 * π / 4 ∧
    aw_relative_luminance (π / 4) 0 90 180 2 0.3 ≠
      aw_relative_luminance_claim (π / 4) 0 90 180 2 0.3 := by
  have hrad90 : radians 90 = π / 2 := by unfold radians; ring
  have hrad180 : radians 180 = π := by unfold radians; ring
  have hpi3 := Real.pi_gt_three
  have hpi4 := Real.pi_lt_four
  refine ⟨?_, ?_, ?_⟩
  · rw [hrad90, hrad180, angle_c1_code]
    exact abs_of_nonneg (by positivity)
  · rw [hrad90, hrad180, angle_c1_true]
  · have hA1 : (-1 : ℝ) < -0.6 + -0.3566 * (π / 2) + 0.3 * (-2.5 + 2.325 * (π / 2)) := by
      nlinarith
    have hA0 : -0.6 + -0.3566 * (π / 2) + 0.3 * (-2.5 + 2.325 * (π / 2)) < 0 := by
      nlinarith
    have hB : 0.2937 + 0.0496 * (π / 2) + 0.3 * (-5.6812 + 1.8415 * (π / 2)) < 0 := by
      nlinarith
    have hC : (0 : ℝ) < 21.0000 + -4.7656 * (π / 2) + 0.3 * (-21.5906 + 7.2492 * (π / 2)) := by
      nlinarith
    have hD : -3.5000 + -0.1554 * (π / 2) + 0.3 * (1.4062 + 0.3988 * (π / 2)) < 0 := by
      nlinarith
    simp only [aw_relative_luminance, aw_relative_luminance_claim, hrad90, hrad180,
      aw_parameters_c1, angle_c1_code, angle_c1_true]
    rw [abs_of_nonneg (show (0 : ℝ) ≤ π / 4 by positivity),
      abs_of_nonneg (show (0 : ℝ) ≤ π / 2 by positivity)]
    exact aw_lum_gamma_ne _ _ _ _ _ hA1 hA0 hB hC hD
